import Mathlib

/-!
Verification of the agent execution engine of nanobot-rs.

This file gives a shallow embedding, in Lean 4, of the parts of the
repository that the specification's claims are about:

* `src/session.rs` — `Session`, `add_message_with_tools`, `get_history`;
* `src/agent/context.rs` — `ContextBuilder::build_system_prompt`,
  `build_messages`, `add_tool_result`, `add_assistant_message`,
  `build_user_content`;
* `src/agent/loop.rs` — `AgentLoop::build_turn_messages`,
  `runtime_facts_message`, the iterative tool-calling loop of
  `process_message` / `process_system_message`, and the dispatch loop `run`;
* `src/tools/base.rs` — `validate_value`, `Tool::validate_params`;
* `src/tools/registry.rs` — `ToolRegistry::execute`;
* `src/agent/subagent.rs` — `SubagentManager::spawn` and the completion
  continuation of a spawned task.

Modelling conventions: JSON values (`serde_json::Value`) are embedded as the
inductive `Json` below, with numbers restricted to integers (every number the
claims exercise is an integer; floating point is outside the embedding).
Effects are made explicit: the ambient filesystem/clock/skills inputs of
`ContextBuilder` become fields of `ContextEnv`, the LLM provider becomes a
function from the message array to a response, and timestamps are passed as
arguments.  Rust `HashMap`s become association lists with last-registration-
wins insert semantics.
-/

/-- Embedding of `serde_json::Value`, with numbers restricted to integers
(the only numbers appearing in the claims and in the schemas at issue). -/
inductive Json where
  | null : Json
  | bool (b : Bool) : Json
  | int (n : Int) : Json
  | str (s : String) : Json
  | arr (items : List Json) : Json
  | obj (fields : List (String × Json)) : Json

namespace Json

mutual

/-- Structural decidable equality for `Json` (mirrors `serde_json`
value equality on the integer-only value space). -/
def decEq : (a b : Json) → Decidable (a = b)
  | .null, .null => isTrue rfl
  | .bool a, .bool b =>
      if h : a = b then isTrue (by rw [h]) else isFalse (fun hh => h (by injection hh))
  | .int a, .int b =>
      if h : a = b then isTrue (by rw [h]) else isFalse (fun hh => h (by injection hh))
  | .str a, .str b =>
      if h : a = b then isTrue (by rw [h]) else isFalse (fun hh => h (by injection hh))
  | .arr xs, .arr ys =>
      match decEqItems xs ys with
      | isTrue h => isTrue (by rw [h])
      | isFalse h => isFalse (fun hh => h (by injection hh))
  | .obj xs, .obj ys =>
      match decEqFields xs ys with
      | isTrue h => isTrue (by rw [h])
      | isFalse h => isFalse (fun hh => h (by injection hh))
  | .null, .bool _ => isFalse (fun h => nomatch h)
  | .null, .int _ => isFalse (fun h => nomatch h)
  | .null, .str _ => isFalse (fun h => nomatch h)
  | .null, .arr _ => isFalse (fun h => nomatch h)
  | .null, .obj _ => isFalse (fun h => nomatch h)
  | .bool _, .null => isFalse (fun h => nomatch h)
  | .bool _, .int _ => isFalse (fun h => nomatch h)
  | .bool _, .str _ => isFalse (fun h => nomatch h)
  | .bool _, .arr _ => isFalse (fun h => nomatch h)
  | .bool _, .obj _ => isFalse (fun h => nomatch h)
  | .int _, .null => isFalse (fun h => nomatch h)
  | .int _, .bool _ => isFalse (fun h => nomatch h)
  | .int _, .str _ => isFalse (fun h => nomatch h)
  | .int _, .arr _ => isFalse (fun h => nomatch h)
  | .int _, .obj _ => isFalse (fun h => nomatch h)
  | .str _, .null => isFalse (fun h => nomatch h)
  | .str _, .bool _ => isFalse (fun h => nomatch h)
  | .str _, .int _ => isFalse (fun h => nomatch h)
  | .str _, .arr _ => isFalse (fun h => nomatch h)
  | .str _, .obj _ => isFalse (fun h => nomatch h)
  | .arr _, .null => isFalse (fun h => nomatch h)
  | .arr _, .bool _ => isFalse (fun h => nomatch h)
  | .arr _, .int _ => isFalse (fun h => nomatch h)
  | .arr _, .str _ => isFalse (fun h => nomatch h)
  | .arr _, .obj _ => isFalse (fun h => nomatch h)
  | .obj _, .null => isFalse (fun h => nomatch h)
  | .obj _, .bool _ => isFalse (fun h => nomatch h)
  | .obj _, .int _ => isFalse (fun h => nomatch h)
  | .obj _, .str _ => isFalse (fun h => nomatch h)
  | .obj _, .arr _ => isFalse (fun h => nomatch h)
termination_by a _ => sizeOf a

def decEqItems : (xs ys : List Json) → Decidable (xs = ys)
  | [], [] => isTrue rfl
  | [], _ :: _ => isFalse (fun h => nomatch h)
  | _ :: _, [] => isFalse (fun h => nomatch h)
  | x :: xs, y :: ys =>
      match decEq x y with
      | isFalse h1 => isFalse (fun h => h1 (by injection h))
      | isTrue h1 =>
          match decEqItems xs ys with
          | isTrue h2 => isTrue (by rw [h1, h2])
          | isFalse h2 => isFalse (fun h => h2 (by injection h))
termination_by xs _ => sizeOf xs

def decEqFields : (xs ys : List (String × Json)) → Decidable (xs = ys)
  | [], [] => isTrue rfl
  | [], _ :: _ => isFalse (fun h => nomatch h)
  | _ :: _, [] => isFalse (fun h => nomatch h)
  | (k1, v1) :: xs, (k2, v2) :: ys =>
      if hk : k1 = k2 then
        match decEq v1 v2 with
        | isFalse h1 =>
            isFalse (fun h => by
              injection h with hhead htail
              exact h1 (by injection hhead))
        | isTrue h1 =>
            match decEqFields xs ys with
            | isTrue h2 => isTrue (by rw [hk, h1, h2])
            | isFalse h2 => isFalse (fun h => h2 (by injection h))
      else
        isFalse (fun h => by
          injection h with hhead htail
          exact hk (by injection hhead))
termination_by xs _ => sizeOf xs

end

instance : DecidableEq Json := decEq

/-- `Value::get(key)` on objects (`None` on non-objects). -/
def get (j : Json) (key : String) : Option Json :=
  match j with
  | .obj fields => fields.lookup key
  | _ => none

/-- `Value::as_str`. -/
def asStr : Json → Option String
  | .str s => some s
  | _ => none

/-- `Value::as_i64` (on the integer-only value space). -/
def asI64 : Json → Option Int
  | .int n => some n
  | _ => none

/-- `Value::as_u64`: an integer number that is non-negative. -/
def asU64 (j : Json) : Option Nat :=
  match j with
  | .int n => if 0 ≤ n then some n.toNat else none
  | _ => none

/-- `Value::as_f64` on the integer-only value space: every integer number is
representable, non-numbers are `None`.  (Floating-point numbers are outside
the embedding.) -/
def asF64 : Json → Option Int
  | .int n => some n
  | _ => none

/-- `Value::as_array`. -/
def asArray : Json → Option (List Json)
  | .arr items => some items
  | _ => none

/-- `Value::as_object`. -/
def asObject : Json → Option (List (String × Json))
  | .obj fields => some fields
  | _ => none

/-- `Value::is_boolean`. -/
def isBoolean : Json → Bool
  | .bool _ => true
  | _ => false

/-- `Value::is_object`. -/
def isObject : Json → Bool
  | .obj _ => true
  | _ => false

/-- Minimal JSON string escaping (quote and backslash), enough for the
values the claims construct; `serde_json` additionally escapes control
characters, which no claim exercises. -/
def escapeString (s : String) : String :=
  s.foldl (fun acc c =>
    if c = '"' then acc ++ "\\\""
    else if c = '\\' then acc ++ "\\\\"
    else acc.push c) ""

mutual

/-- Compact serialization, mirroring `serde_json::to_string`. -/
def render : Json → String
  | .null => "null"
  | .bool true => "true"
  | .bool false => "false"
  | .int n => toString n
  | .str s => "\"" ++ escapeString s ++ "\""
  | .arr items => "[" ++ renderItems items ++ "]"
  | .obj fields => "\x7b" ++ renderFields fields ++ "\x7d"

def renderItems : List Json → String
  | [] => ""
  | [x] => render x
  | x :: rest => render x ++ "," ++ renderItems rest

def renderFields : List (String × Json) → String
  | [] => ""
  | [(k, v)] => "\"" ++ escapeString k ++ "\":" ++ render v
  | (k, v) :: rest =>
      "\"" ++ escapeString k ++ "\":" ++ render v ++ "," ++ renderFields rest

end

end Json

/-!  ## Session (`src/session.rs`)  -/

/-- `Session` (src/session.rs).  `created_at`/`updated_at`/`metadata` are not
needed by any claim, so only the message list and key are carried; a message
record is the `serde_json::Value` pushed by `add_message_with_tools`. -/
structure Session where
  key : String
  messages : List Json
  deriving DecidableEq

namespace Session

/-- `Session::new`. -/
def new (key : String) : Session :=
  { key := key, messages := [] }

/-- `Session::add_message_with_tools` (src/session.rs lines 35-58).  The
current time produced by `timestamp()` is passed explicitly as `ts`. -/
def add_message_with_tools (s : Session) (role content : String)
    (tools_used : Option (List String)) (ts : String) : Session :=
  let base := [("role", Json.str role), ("content", Json.str content),
               ("timestamp", Json.str ts)]
  let message :=
    match tools_used with
    | some tools =>
        if tools.isEmpty then Json.obj base
        else Json.obj (base ++ [("tools_used", Json.arr (tools.map Json.str))])
    | none => Json.obj base
  { s with messages := s.messages ++ [message] }

/-- `Session::add_message`. -/
def add_message (s : Session) (role content : String) (ts : String) : Session :=
  s.add_message_with_tools role content none ts

/-- `Session::to_llm_message` (src/session.rs lines 60-65). -/
def to_llm_message (m : Json) : Json :=
  Json.obj [("role", Json.str (((m.get "role").bind Json.asStr).getD "user")),
            ("content", Json.str (((m.get "content").bind Json.asStr).getD ""))]

/-- The role="user" filter used by `get_history`. -/
def isUserRecord (m : Json) : Bool :=
  (m.get "role").bind Json.asStr == some "user"

/-- `Session::get_history` (src/session.rs lines 67-81): filter the records
whose role is "user", keep the most recent `max_messages` of them
(`saturating_sub` is `Nat` subtraction), and project each to a role/content
LLM message. -/
def get_history (s : Session) (max_messages : Nat) : List Json :=
  let user_messages := s.messages.filter isUserRecord
  let start := user_messages.length - max_messages
  (user_messages.drop start).map to_llm_message

end Session

/-!  ## Tools (`src/tools/base.rs`, `src/tools/registry.rs`)  -/

/-- Child path for an array element: `"[idx]"` or `"path[idx]"`. -/
def arrayChildPath (path : String) (idx : Nat) : String :=
  if path.isEmpty then "[" ++ toString idx ++ "]"
  else path ++ "[" ++ toString idx ++ "]"

/-- Child path for an object property: `"key"` or `"path.key"`. -/
def objectChildPath (path key : String) : String :=
  if path.isEmpty then key else path ++ "." ++ key

/-- The `required`-keys check of the object branch of `validate_value`. -/
def requiredErrors (obj : List (String × Json)) (schema : Json) (path : String) :
    List String :=
  match (schema.get "required").bind Json.asArray with
  | none => []
  | some required =>
      (required.filterMap Json.asStr).filterMap (fun required_key =>
        if (obj.lookup required_key).isSome then none
        else if path.isEmpty then some ("missing required " ++ required_key)
        else some ("missing required " ++ path ++ "." ++ required_key))

mutual

/-- `validate_value` (src/tools/base.rs lines 36-179).  The pair returned by
the type-specific check is `(errors, early)`: `early = true` models the
`return errors` on a type mismatch, which skips the trailing `enum` check. -/
def validate_value (value schema : Json) (path fallback_label : String) :
    List String :=
  let schema_type := ((schema.get "type").bind Json.asStr).getD "object"
  let label := if path.isEmpty then fallback_label else path
  let checked : List String × Bool :=
    match schema_type with
    | "string" =>
        match value.asStr with
        | some s =>
            let minErr :=
              match (schema.get "minLength").bind Json.asU64 with
              | some min_len =>
                  if s.utf8ByteSize < min_len then
                    [label ++ " must be at least " ++ toString min_len ++ " chars"]
                  else []
              | none => []
            let maxErr :=
              match (schema.get "maxLength").bind Json.asU64 with
              | some max_len =>
                  if s.utf8ByteSize > max_len then
                    [label ++ " must be at most " ++ toString max_len ++ " chars"]
                  else []
              | none => []
            (minErr ++ maxErr, false)
        | none => ([label ++ " should be string"], true)
    | "integer" =>
        match value.asI64 with
        | some num =>
            let minErr :=
              match (schema.get "minimum").bind Json.asI64 with
              | some min =>
                  if num < min then [label ++ " must be >= " ++ toString min] else []
              | none => []
            let maxErr :=
              match (schema.get "maximum").bind Json.asI64 with
              | some max =>
                  if num > max then [label ++ " must be <= " ++ toString max] else []
              | none => []
            (minErr ++ maxErr, false)
        | none => ([label ++ " should be integer"], true)
    | "number" =>
        match value.asF64 with
        | some num =>
            let minErr :=
              match (schema.get "minimum").bind Json.asF64 with
              | some min =>
                  if num < min then [label ++ " must be >= " ++ toString min] else []
              | none => []
            let maxErr :=
              match (schema.get "maximum").bind Json.asF64 with
              | some max =>
                  if num > max then [label ++ " must be <= " ++ toString max] else []
              | none => []
            (minErr ++ maxErr, false)
        | none => ([label ++ " should be number"], true)
    | "boolean" =>
        if value.isBoolean then ([], false)
        else ([label ++ " should be boolean"], true)
    | "array" =>
        match value with
        | .arr arr =>
            (match schema.get "items" with
             | some item_schema =>
                 (validate_items arr item_schema path fallback_label 0, false)
             | none => ([], false))
        | _ => ([label ++ " should be array"], true)
    | "object" =>
        match value with
        | .obj obj =>
            let props :=
              ((schema.get "properties").bind Json.asObject).getD []
            (requiredErrors obj schema path ++
               validate_props obj props path fallback_label, false)
        | _ => ([label ++ " should be object"], true)
    | _ => ([], false)
  if checked.2 then checked.1
  else
    let enumErr :=
      match (schema.get "enum").bind Json.asArray with
      | some enums =>
          if enums.any (fun candidate => candidate == value) then []
          else [label ++ " must be one of " ++ (Json.arr enums).render]
      | none => []
    checked.1 ++ enumErr
termination_by sizeOf value

/-- The `for (idx, item) in arr.iter().enumerate()` loop of the array branch. -/
def validate_items (items : List Json) (item_schema : Json)
    (path fallback_label : String) (idx : Nat) : List String :=
  match items with
  | [] => []
  | item :: rest =>
      validate_value item item_schema (arrayChildPath path idx) fallback_label ++
        validate_items rest item_schema path fallback_label (idx + 1)
termination_by sizeOf items

/-- The `for (key, item) in obj` loop of the object branch: keys with no
schema in `properties` are skipped (open schema). -/
def validate_props (obj props : List (String × Json))
    (path fallback_label : String) : List String :=
  match obj with
  | [] => []
  | (key, item) :: rest =>
      (match props.lookup key with
       | some prop_schema =>
           validate_value item prop_schema (objectChildPath path key)
             fallback_label
       | none => []) ++
        validate_props rest props path fallback_label
termination_by sizeOf obj

end

/-- A tool capability (`trait Tool`, src/tools/base.rs): name, description,
JSON-schema parameters, and a fallible `execute`.  `execute` is a pure
function of the parameter map into `Except` (Rust `anyhow::Result`). -/
structure ToolImpl where
  name : String
  description : String
  parameters : Json
  execute : List (String × Json) → Except String String

/-- `Tool::validate_params` (src/tools/base.rs lines 12-22). -/
def ToolImpl.validate_params (tool : ToolImpl) (params : List (String × Json)) :
    List String :=
  let schema := tool.parameters
  let schema_type := ((schema.get "type").bind Json.asStr).getD "object"
  if schema_type ≠ "object" then
    ["schema for " ++ tool.name ++ " must be object type"]
  else
    validate_value (Json.obj params) schema "" "parameter"

/-- `Tool::to_schema` (src/tools/base.rs lines 24-33). -/
def ToolImpl.to_schema (tool : ToolImpl) : Json :=
  Json.obj [("type", Json.str "function"),
            ("function", Json.obj
              [("name", Json.str tool.name),
               ("description", Json.str tool.description),
               ("parameters", tool.parameters)])]

/-- `ToolRegistry` (src/tools/registry.rs): a name-keyed map of tools.  The
Rust `HashMap` is modelled as a list that `register` keeps duplicate-free,
so insertion is last-registration-wins. -/
structure ToolRegistry where
  tools : List ToolImpl

namespace ToolRegistry

/-- `ToolRegistry::new`. -/
def new : ToolRegistry := { tools := [] }

/-- `ToolRegistry::register`: `HashMap::insert` keyed by `tool.name()`,
replacing any previous registration under the same name. -/
def register (reg : ToolRegistry) (tool : ToolImpl) : ToolRegistry :=
  { tools := reg.tools.filter (fun t => t.name ≠ tool.name) ++ [tool] }

/-- `ToolRegistry::get` / the lookup in `execute`. -/
def getTool (reg : ToolRegistry) (name : String) : Option ToolImpl :=
  reg.tools.find? (fun t => t.name = name)

/-- `ToolRegistry::has`. -/
def hasTool (reg : ToolRegistry) (name : String) : Bool :=
  (reg.getTool name).isSome

/-- `ToolRegistry::get_definitions`. -/
def get_definitions (reg : ToolRegistry) : List Json :=
  reg.tools.map ToolImpl.to_schema

/-- `ToolRegistry::tool_names`. -/
def tool_names (reg : ToolRegistry) : List String :=
  reg.tools.map ToolImpl.name

/-- `ToolRegistry::execute` (src/tools/registry.rs lines 37-54): always a
plain string — a not-found message, a validation-error message, the tool's
output, or an execution-error message. -/
def execute (reg : ToolRegistry) (name : String)
    (params : List (String × Json)) : String :=
  match reg.getTool name with
  | none => "Error: Tool \x27" ++ name ++ "\x27 not found"
  | some tool =>
      let errors := tool.validate_params params
      if ¬errors.isEmpty then
        "Error: Invalid parameters for tool \x27" ++ name ++ "\x27: " ++
          String.intercalate "; " errors
      else
        match tool.execute params with
        | .ok output => output
        | .error err => "Error executing " ++ name ++ ": " ++ err

end ToolRegistry

/-!  ## Messages (`src/bus.rs`) and context (`src/agent/context.rs`)  -/

/-- `InboundMessage` (src/bus.rs).  The timestamp is an opaque string. -/
structure InboundMessage where
  channel : String
  sender_id : String
  chat_id : String
  content : String
  timestamp : String
  media : List String
  metadata : List (String × Json)
  deriving DecidableEq

/-- `InboundMessage::new`. -/
def InboundMessage.new (channel sender_id chat_id content ts : String) :
    InboundMessage :=
  { channel := channel, sender_id := sender_id, chat_id := chat_id,
    content := content, timestamp := ts, media := [], metadata := [] }

/-- `InboundMessage::session_key`. -/
def InboundMessage.session_key (m : InboundMessage) : String :=
  m.channel ++ ":" ++ m.chat_id

/-- `OutboundMessage` (src/bus.rs). -/
structure OutboundMessage where
  channel : String
  chat_id : String
  content : String
  reply_to : Option String
  media : List String
  metadata : List (String × Json)
  deriving DecidableEq

/-- `OutboundMessage::new`. -/
def OutboundMessage.new (channel chat_id content : String) : OutboundMessage :=
  { channel := channel, chat_id := chat_id, content := content,
    reply_to := none, media := [], metadata := [] }

/-- Rust `str::split_once(':')`: split at the first colon, `none` when the
string contains no colon. -/
def splitOnceColon (s : String) : Option (String × String) :=
  match s.splitOn ":" with
  | [] => none
  | [_] => none
  | first :: rest => some (first, String.intercalate ":" rest)

/-- The ambient inputs of `ContextBuilder` (src/agent/context.rs): clock,
OS identification, workspace path, the filesystem reads, `MemoryStore` and
`SkillsLoader` (both external collaborators, spec section 6), and the media
helpers `mime_guess::from_path` and base64-encoded file reads used by
`build_user_content`.  Making them fields turns the builder's IO into a pure
function of this environment. -/
structure ContextEnv where
  now : String
  tzRaw : String
  osName : String
  arch : String
  workspaceDisplay : String
  readTextFile : String → Option String
  memoryContext : String
  alwaysSkills : List String
  loadSkillsForContext : List String → String
  skillsSummary : String
  mimeOf : String → Option String
  readFileB64 : String → Option String

namespace ContextEnv

/-- The identity/time/runtime/workspace preamble of `build_system_prompt`
(src/agent/context.rs lines 28-41). -/
def preamble (env : ContextEnv) : String :=
  let tz := if env.tzRaw.trim.isEmpty then "UTC" else env.tzRaw
  let runtime := env.osName ++ " " ++ env.arch
  let ws := env.workspaceDisplay
  "# nanobot-rs\n\nYou are nanobot, a helpful AI assistant.\n\n## Current Time\n" ++
    env.now ++ " (" ++ tz ++ ")\n\n## Runtime\n" ++ runtime ++
    "\n\n## Workspace\n" ++ ws ++ "\n- Memory files: " ++ ws ++
    "/memory/MEMORY.md\n- Daily notes: " ++ ws ++
    "/memory/YYYY-MM-DD.md\n\nIMPORTANT: Respond directly in text for normal chat.\n" ++
    "Only use the \x27message\x27 tool for proactive channel messages.\n" ++
    "Always be helpful, accurate, and concise. When using tools, think step by step: " ++
    "what you know, what you need, and why you chose this tool.\n" ++
    "When remembering something, write to " ++ ws ++ "/memory/MEMORY.md"

/-- `ContextBuilder::build_system_prompt` (src/agent/context.rs lines 25-85):
fixed-order sections, empty ones omitted, joined by the fixed separator. -/
def build_system_prompt (env : ContextEnv) (skill_names : Option (List String)) :
    String :=
  let parts0 := [env.preamble]
  let bootstrap_files := ["AGENTS.md", "SOUL.md", "USER.md", "TOOLS.md", "IDENTITY.md"]
  let bootstrap_parts := bootstrap_files.filterMap (fun filename =>
    (env.readTextFile (env.workspaceDisplay ++ "/" ++ filename)).map
      (fun content => "## " ++ filename ++ "\n\n" ++ content))
  let parts1 := parts0 ++
    (if ¬bootstrap_parts.isEmpty then [String.intercalate "\n\n" bootstrap_parts] else [])
  let parts2 := parts1 ++
    (if ¬env.memoryContext.isEmpty then ["# Memory\n\n" ++ env.memoryContext] else [])
  let parts3 := parts2 ++
    (if ¬env.alwaysSkills.isEmpty then
       (let content := env.loadSkillsForContext env.alwaysSkills
        if ¬content.isEmpty then ["# Active Skills\n\n" ++ content] else [])
     else [])
  let parts4 := parts3 ++
    (match skill_names with
     | some names =>
         if ¬names.isEmpty then
           (let content := env.loadSkillsForContext names
            if ¬content.isEmpty then ["# Requested Skills\n\n" ++ content] else [])
         else []
     | none => [])
  let parts5 := parts4 ++
    (if ¬env.skillsSummary.isEmpty then
       ["# Skills\n\nThe following skills extend your capabilities. To use a skill, " ++
          "read its SKILL.md file using the read_file tool.\n\n" ++ env.skillsSummary]
     else [])
  String.intercalate "\n\n---\n\n" parts5

/-- `build_user_content` (src/agent/context.rs lines 155-190): with media, one
base64 data-URI image part per readable file whose MIME type starts with
"image/", then a trailing text part; plain text when nothing resolves. -/
def build_user_content (env : ContextEnv) (text : String)
    (media : Option (List String)) : Json :=
  match media with
  | none => Json.str text
  | some media_paths =>
      if media_paths.isEmpty then Json.str text
      else
        let images := media_paths.filterMap (fun path =>
          match env.mimeOf path with
          | some mime =>
              if mime.startsWith "image/" then
                match env.readFileB64 path with
                | some encoded =>
                    some (Json.obj
                      [("type", Json.str "image_url"),
                       ("image_url", Json.obj
                         [("url", Json.str ("data:" ++ mime ++ ";base64," ++ encoded))])])
                | none => none
              else none
          | none => none)
        if images.isEmpty then Json.str text
        else Json.arr (images ++
          [Json.obj [("type", Json.str "text"), ("text", Json.str text)]])

/-- `ContextBuilder::build_messages` (src/agent/context.rs lines 87-115):
`[system, ...history, user]`, with a session locator appended to the system
prompt when channel and chat id are both given. -/
def build_messages (env : ContextEnv) (history : List Json)
    (current_message : String) (skill_names : Option (List String))
    (channel chat_id : Option String) (media : Option (List String)) :
    List Json :=
  let base_prompt := env.build_system_prompt skill_names
  let system_prompt :=
    match channel, chat_id with
    | some channel, some chat_id =>
        base_prompt ++ "\n\n## Current Session\nChannel: " ++ channel ++
          "\nChat ID: " ++ chat_id
    | _, _ => base_prompt
  let user_content := env.build_user_content current_message media
  [Json.obj [("role", Json.str "system"), ("content", Json.str system_prompt)]] ++
    history ++
    [Json.obj [("role", Json.str "user"), ("content", user_content)]]

end ContextEnv

/-- `ContextBuilder::add_tool_result` (src/agent/context.rs lines 117-130). -/
def add_tool_result (messages : List Json)
    (tool_call_id tool_name result : String) : List Json :=
  messages ++
    [Json.obj [("role", Json.str "tool"),
               ("tool_call_id", Json.str tool_call_id),
               ("name", Json.str tool_name),
               ("content", Json.str result)]]

/-- `ContextBuilder::add_assistant_message` (src/agent/context.rs lines
132-152): optional `tool_calls` array, optional non-empty reasoning. -/
def add_assistant_message (messages : List Json) (content : Option String)
    (tool_calls : Option (List Json)) (reasoning_content : Option String) :
    List Json :=
  let base := [("role", Json.str "assistant"),
               ("content", Json.str (content.getD ""))]
  let withCalls :=
    match tool_calls with
    | some calls => base ++ [("tool_calls", Json.arr calls)]
    | none => base
  let withReasoning :=
    match reasoning_content with
    | some reasoning =>
        if ¬reasoning.isEmpty then
          withCalls ++ [("reasoning_content", Json.str reasoning)]
        else withCalls
    | none => withCalls
  messages ++ [Json.obj withReasoning]

/-!  ## The agent loop (`src/agent/loop.rs`)  -/

/-- `ToolCallRequest` (providers/base, spec section 3): id, name, JSON
argument map. -/
structure ToolCallRequest where
  id : String
  name : String
  arguments : List (String × Json)
  deriving DecidableEq

/-- Modelled from the spec: `LLMResponse` lives in `src/providers/base.rs`,
which is not among the provided sources; per spec sections 3 and 6 it carries
optional content, a list of `ToolCallRequest`, and (per the uses in
src/agent/loop.rs) optional reasoning content. -/
structure LLMResponse where
  content : Option String
  tool_calls : List ToolCallRequest
  reasoning_content : Option String

/-- Modelled from the spec: `LLMResponse::has_tool_calls` (declared in the
missing `src/providers/base.rs`); per spec section 4.5 it holds exactly when
`tool_calls` is non-empty. -/
def LLMResponse.has_tool_calls (r : LLMResponse) : Bool :=
  ¬r.tool_calls.isEmpty

/-- Modelled from the spec: `TurnGuard` (its module `src/agent/turn_guard.rs`
is not among the provided sources).  Per spec section 4.4 it is a per-turn
decision procedure: `shouldRetry` is the textual classifier behind
`should_retry_after_false_no_tools_claim(content, iteration)` (heuristic,
left abstract), `correctionMessage` the corrective nudge message, and
`toolsAvailableResponse` the canned "tools are available" response. -/
structure TurnGuard where
  shouldRetry : Option String → Nat → Bool
  correctionMessage : Json
  toolsAvailableResponse : String

/-- One `AgentLoop` instance (src/agent/loop.rs), with its effectful
collaborators made explicit: `provider` is the LLM as a function of the
message array (one deterministic completion per request), `guard` the
per-turn `TurnGuard`. -/
structure AgentLoop where
  env : ContextEnv
  model : String
  max_iterations : Nat
  tools : ToolRegistry
  provider : List Json → LLMResponse
  guard : TurnGuard

namespace AgentLoop

/-- `AgentLoop::available_tools_text` (src/agent/loop.rs lines 44-52). -/
def available_tools_text (a : AgentLoop) : String :=
  let tool_names := (a.tools.tool_names).mergeSort (fun x y => decide (x ≤ y))
  if tool_names.isEmpty then "(none)"
  else String.intercalate ", " tool_names

/-- `AgentLoop::runtime_facts_message` (src/agent/loop.rs lines 54-67). -/
def runtime_facts_message (a : AgentLoop) : Json :=
  let tools_text := a.available_tools_text
  Json.obj
    [("role", Json.str "system"),
     ("content", Json.str
       ("Runtime facts (authoritative): active model is \x27" ++ a.model ++
        "\x27; available tools are: " ++ tools_text ++
        ". If a user asks for external actions (network/file/command/scheduling), " ++
        "do not claim tools are unavailable; call the matching tool directly. " ++
        "Focus on the current user message only; do not summarize prior tasks " ++
        "unless explicitly requested."))]

/-- `AgentLoop::build_turn_messages` (src/agent/loop.rs lines 69-87):
`ContextBuilder::build_messages` with the runtime-facts system message
inserted at index 1. -/
def build_turn_messages (a : AgentLoop) (history : List Json)
    (current_message channel chat_id : String) (media : Option (List String)) :
    List Json :=
  let messages := a.env.build_messages history current_message none
    (some channel) (some chat_id) media
  messages.insertIdx 1 a.runtime_facts_message

/-- The per-iteration mutable state of the turn loop of `process_message`
(src/agent/loop.rs lines 257-265), plus two instrumentation counters:
`llmCalls` counts provider requests, `retryCount` counts fresh-context
rebuilds. -/
structure TurnState where
  messages : List Json
  tools_used : List String
  retried_with_fresh_context : Bool
  llmCalls : Nat
  retryCount : Nat

/-- Outcome of the turn loop: `final_content` as left by the `for` loop
(`none` when the iteration cap exhausted without a final answer). -/
structure TurnResult where
  final_content : Option String
  state : TurnState

/-- The serialized tool-call dictionaries built for the assistant message
(src/agent/loop.rs lines 274-287). -/
def tool_call_dicts (tcs : List ToolCallRequest) : List Json :=
  tcs.map (fun tc =>
    Json.obj
      [("id", Json.str tc.id),
       ("type", Json.str "function"),
       ("function", Json.obj
         [("name", Json.str tc.name),
          ("arguments", Json.str (Json.obj tc.arguments).render)])])

/-- The sequential tool-execution loop (src/agent/loop.rs lines 295-307):
for each call, in order, record the name, execute through the registry, and
append the result as a tool message. -/
def execToolCalls (a : AgentLoop) (tcs : List ToolCallRequest)
    (messages : List Json) (tools_used : List String) :
    List Json × List String :=
  match tcs with
  | [] => (messages, tools_used)
  | tc :: rest =>
      let tools_used := tools_used ++ [tc.name]
      let result := a.tools.execute tc.name tc.arguments
      let messages := add_tool_result messages tc.id tc.name result
      execToolCalls a rest messages tools_used

/-- The synthetic reflect nudge (src/agent/loop.rs lines 308-311). -/
def reflectNudge : Json :=
  Json.obj [("role", Json.str "user"),
            ("content", Json.str "Reflect on the results and decide next steps.")]

/-- The body of `for iteration in 1..=self.max_iterations` of
`process_message` (src/agent/loop.rs lines 266-335), as fuelled recursion:
`fuel` is the number of remaining iterations (starting at
`max_iterations`), `iteration` the 1-based loop counter. -/
def runIterations (a : AgentLoop) (msg_content channel chat_id : String)
    (media : Option (List String)) : Nat → Nat → TurnState → TurnResult
  | 0, _, st => { final_content := none, state := st }
  | fuel + 1, iteration, st =>
      let response := a.provider st.messages
      let st := { st with llmCalls := st.llmCalls + 1 }
      if response.has_tool_calls then
        let messages := add_assistant_message st.messages response.content
          (some (tool_call_dicts response.tool_calls)) response.reasoning_content
        let (messages, tools_used) :=
          a.execToolCalls response.tool_calls messages st.tools_used
        let messages := messages ++ [reflectNudge]
        runIterations a msg_content channel chat_id media fuel (iteration + 1)
          { st with messages := messages, tools_used := tools_used }
      else
        if a.guard.shouldRetry response.content iteration then
          if ¬st.retried_with_fresh_context then
            let messages := a.build_turn_messages [] msg_content channel chat_id media
            let messages := messages ++ [a.guard.correctionMessage]
            runIterations a msg_content channel chat_id media fuel (iteration + 1)
              { st with messages := messages,
                        retried_with_fresh_context := true,
                        retryCount := st.retryCount + 1 }
          else
            { final_content := some a.guard.toolsAvailableResponse, state := st }
        else
          { final_content := response.content, state := st }

/-- Run the turn loop from its initial state. -/
def runTurn (a : AgentLoop) (initial_messages : List Json)
    (msg_content channel chat_id : String) (media : Option (List String)) :
    TurnResult :=
  a.runIterations msg_content channel chat_id media a.max_iterations 1
    { messages := initial_messages, tools_used := [],
      retried_with_fresh_context := false, llmCalls := 0, retryCount := 0 }

/-- The default fallback answer of `process_message`
(src/agent/loop.rs lines 337-339). -/
def defaultFallback : String :=
  "I\x27ve completed processing but have no response to give."

/-- The `media` option computed by `process_message`
(src/agent/loop.rs lines 247-251). -/
def mediaOf (msg : InboundMessage) : Option (List String) :=
  if msg.media.isEmpty then none else some msg.media

/-- The message array `process_message` sends to the provider on the first
iteration of a normal (non-system) turn (src/agent/loop.rs lines 252-255):
the replayed history is `session.get_history(0)`. -/
def firstIterationMessages (a : AgentLoop) (session : Session)
    (msg : InboundMessage) : List Json :=
  let history := session.get_history 0
  a.build_turn_messages history msg.content msg.channel msg.chat_id (mediaOf msg)

/-- Result of one embedded `process_message` call: the outbound reply and
the session as saved. -/
structure ProcessOutcome where
  outbound : OutboundMessage
  savedSession : Session
  answer : String
  result : TurnResult

/-- `AgentLoop::process_message` for a non-system message (src/agent/loop.rs
lines 222-348), after session load and optional memory consolidation (the
`session` argument is the loaded, possibly consolidated session; the two
`timestamp()` calls of the persistence step are `ts1`/`ts2`). -/
def processMessage (a : AgentLoop) (session : Session) (msg : InboundMessage)
    (ts1 ts2 : String) : ProcessOutcome :=
  let media := mediaOf msg
  let history := session.get_history 0
  let messages := a.build_turn_messages history msg.content msg.channel
    msg.chat_id media
  let r := a.runTurn messages msg.content msg.channel msg.chat_id media
  let answer := r.final_content.getD defaultFallback
  let session := session.add_message "user" msg.content ts1
  let session := session.add_message_with_tools "assistant" answer
    (some r.state.tools_used) ts2
  let outbound := { OutboundMessage.new msg.channel msg.chat_id answer with
                    metadata := msg.metadata }
  { outbound := outbound, savedSession := session, answer := answer, result := r }

/-- The origin split of `process_system_message` (src/agent/loop.rs lines
350-355): `chat_id.split_once(':')` with fallback `("cli", chat_id)`. -/
def systemOrigin (msg : InboundMessage) : String × String :=
  (splitOnceColon msg.chat_id).getD ("cli", msg.chat_id)

/-- The message array `process_system_message` sends to the provider on the
first iteration (src/agent/loop.rs lines 365-375): again the replayed
history is `session.get_history(0)`, and no media is passed. -/
def systemFirstIterationMessages (a : AgentLoop) (session : Session)
    (msg : InboundMessage) : List Json :=
  let (origin_channel, origin_chat_id) := systemOrigin msg
  let history := session.get_history 0
  a.build_turn_messages history msg.content origin_channel origin_chat_id none

end AgentLoop

/-!  ## The dispatch loop (`AgentLoop::run`, src/agent/loop.rs lines 190-216)  -/

namespace AgentLoop

/-- One dispatch step of `run`: `process_message`'s result is matched; an
error `err` is converted into the apology outbound message carrying the
inbound metadata (src/agent/loop.rs lines 201-212). -/
def dispatchOnce (processResult : Except String OutboundMessage)
    (msg : InboundMessage) : OutboundMessage :=
  match processResult with
  | .ok resp => resp
  | .error err =>
      { OutboundMessage.new msg.channel msg.chat_id
          ("Sorry, I encountered an error: " ++ err) with
        metadata := msg.metadata }

/-- The dispatch loop of `run` over the sequence of inbound messages the bus
delivers: every consumed message — failing turns included — produces exactly
one published outbound message, and consumption continues with the next
message (the `while` loop never exits because a turn failed). -/
def runDispatch (process : InboundMessage → Except String OutboundMessage) :
    List InboundMessage → List OutboundMessage
  | [] => []
  | msg :: rest => dispatchOnce (process msg) msg :: runDispatch process rest

end AgentLoop

/-!  ## SubagentManager (`src/agent/subagent.rs`)  -/

namespace SubagentManager

/-- The display label of `spawn` (src/agent/subagent.rs lines 55-61).
(Rust truncates at 30 bytes; the model truncates at 30 characters, which
coincides on ASCII labels — no claim depends on the label text.) -/
def displayLabel (task : String) (label : Option String) : String :=
  label.getD (if task.length > 30 then task.take 30 ++ "..." else task)

/-- The acknowledgement string `spawn` returns immediately, before the
spawned task has run (src/agent/subagent.rs lines 121-124); it is a function
of the label and task id only, independent of the task's eventual outcome. -/
def spawnAck (display_label task_id : String) : String :=
  "Subagent [" ++ display_label ++ "] started (id: " ++ task_id ++
    "). I\x27ll notify you when it completes."

/-- The announce text built by the completion continuation
(src/agent/subagent.rs lines 90-103), for a run outcome `result`
(`Ok(summary)` or `Err(err)`). -/
def subagentAnnounce (result : Except String String)
    (label task : String) : String :=
  let statusContent :=
    match result with
    | .ok summary => ("ok", summary)
    | .error err => ("error", "Error: " ++ err)
  let status_text :=
    if statusContent.1 = "ok" then "completed successfully" else "failed"
  "[Subagent \x27" ++ label ++ "\x27 " ++ status_text ++ "]\n\nTask: " ++ task ++
    "\n\nResult:\n" ++ statusContent.2 ++
    "\n\nSummarize this naturally for the user. Keep it brief (1-2 sentences). " ++
    "Do not mention technical details like \"subagent\" or task IDs."

/-- The synthetic `InboundMessage` the completion continuation publishes
(src/agent/subagent.rs lines 105-112): channel "system", sender "subagent",
chat id `origin_channel:origin_chat_id`. -/
def completionMessage (result : Except String String)
    (label task origin_channel origin_chat_id ts : String) : InboundMessage :=
  { InboundMessage.new "system" "subagent"
      (origin_channel ++ ":" ++ origin_chat_id)
      (subagentAnnounce result label task) ts with media := [], metadata := [] }

/-- Everything the spawned task's continuation publishes onto the shared bus
(src/agent/subagent.rs lines 76-115): the single completion message. -/
def completionPublishes (result : Except String String)
    (label task origin_channel origin_chat_id ts : String) :
    List InboundMessage :=
  [completionMessage result label task origin_channel origin_chat_id ts]

/-- `running_map.lock().await.remove(&task_id)` at the end of the
continuation (src/agent/subagent.rs line 114): the running-task map —
modelled as an association list of task ids — loses the entry. -/
def removeTask (running : List (String × Unit)) (task_id : String) :
    List (String × Unit) :=
  running.filter (fun e => e.1 ≠ task_id)

end SubagentManager

/-!  ## Claim theorems  -/

/-- Helper: `to_llm_message` of a record passing the user filter has role
"user" in the projected message. -/
theorem to_llm_message_role_of_user (m : Json)
    (h : Session.isUserRecord m = true) :
    (Session.to_llm_message m).get "role" = some (Json.str "user") := by
  have h1 : (m.get "role").bind Json.asStr = some "user" := by
    simpa [Session.isUserRecord] using h
  simp only [Session.to_llm_message, h1, Option.getD_some]
  simp [Json.get, List.lookup]

/-- Helper: `get_history` unfolded to a right-take of the mapped user
records. -/
theorem get_history_eq_rtake (s : Session) (n : Nat) :
    s.get_history n =
      ((s.messages.filter Session.isUserRecord).map Session.to_llm_message).rtake
        n := by
  simp [Session.get_history, List.rtake, List.map_drop]

/-- The session of the spec's worked example: messages
`[user:u1, assistant:a1, user:u2]`. -/
def exampleSession : Session :=
  (((Session.new "cli:test").add_message "user" "u1" "t1").add_message
      "assistant" "a1" "t2").add_message "user" "u2" "t3"

/-- C1: for every session and every `n`, `get_history n` returns only
role="user" records, exactly the most recent `n` of them (`rtake n` of the
user-filtered record list, projected to role/content), in original order;
in particular on `[user:u1, assistant:a1, user:u2]` it yields `[u1, u2]`
for every `n ≥ 2`. -/
theorem C1_get_history_user_only_most_recent (s : Session) (n : Nat) :
    (∀ m ∈ s.get_history n, m.get "role" = some (Json.str "user")) ∧
    (s.get_history n).length =
      min n (s.messages.filter Session.isUserRecord).length ∧
    s.get_history n =
      ((s.messages.filter Session.isUserRecord).map
        Session.to_llm_message).rtake n ∧
    (2 ≤ n → exampleSession.get_history n =
      [Json.obj [("role", Json.str "user"), ("content", Json.str "u1")],
       Json.obj [("role", Json.str "user"), ("content", Json.str "u2")]]) := by
  refine ⟨?_, ?_, get_history_eq_rtake s n, ?_⟩
  · intro m hm
    simp only [Session.get_history, List.mem_map] at hm
    obtain ⟨m0, hm0, rfl⟩ := hm
    have hmem : m0 ∈ s.messages.filter Session.isUserRecord :=
      List.mem_of_mem_drop hm0
    exact to_llm_message_role_of_user m0 (List.of_mem_filter hmem)
  · simp only [Session.get_history, List.length_map, List.length_drop]
    omega
  · intro hn
    have hfilter : exampleSession.messages.filter Session.isUserRecord =
        [Json.obj [("role", Json.str "user"), ("content", Json.str "u1"),
                   ("timestamp", Json.str "t1")],
         Json.obj [("role", Json.str "user"), ("content", Json.str "u2"),
                   ("timestamp", Json.str "t3")]] := by rfl
    have hz : ([Json.obj [("role", Json.str "user"),
                 ("content", Json.str "u1"), ("timestamp", Json.str "t1")],
                Json.obj [("role", Json.str "user"),
                 ("content", Json.str "u2"),
                 ("timestamp", Json.str "t3")]] : List Json).length - n = 0 := by
      simp only [List.length_cons, List.length_nil]
      omega
    simp only [Session.get_history, hfilter, hz, List.drop_zero]
    rfl

/-- C1 witness: the worked example evaluated at `n = 2`. -/
theorem C1_witness :
    exampleSession.get_history 2 =
      [Json.obj [("role", Json.str "user"), ("content", Json.str "u1")],
       Json.obj [("role", Json.str "user"), ("content", Json.str "u2")]] :=
  (C1_get_history_user_only_most_recent exampleSession 2).2.2.2 (by norm_num)

/-- Helper: `get_history 0` is always empty (`saturating_sub` drops the
whole user list). -/
theorem get_history_zero (s : Session) : s.get_history 0 = [] := by
  simp [Session.get_history]

/-- Helper: the first-iteration array of a non-system turn, spelt out:
system prompt (with session locator), runtime-facts message, current user
message — with no replayed history, since `process_message` passes
`get_history 0`. -/
theorem firstIterationMessages_eq (a : AgentLoop) (s : Session)
    (msg : InboundMessage) :
    a.firstIterationMessages s msg =
      [Json.obj [("role", Json.str "system"),
         ("content", Json.str (a.env.build_system_prompt none ++
           "\n\n## Current Session\nChannel: " ++ msg.channel ++
           "\nChat ID: " ++ msg.chat_id))],
       a.runtime_facts_message,
       Json.obj [("role", Json.str "user"),
         ("content", a.env.build_user_content msg.content
           (AgentLoop.mediaOf msg))]] := by
  simp [AgentLoop.firstIterationMessages, AgentLoop.build_turn_messages,
    ContextEnv.build_messages, get_history_zero, List.insertIdx]

/-- Helper: likewise for a system turn (`process_system_message`). -/
theorem systemFirstIterationMessages_eq (a : AgentLoop) (s : Session)
    (msg : InboundMessage) :
    a.systemFirstIterationMessages s msg =
      a.build_turn_messages [] msg.content (AgentLoop.systemOrigin msg).1
        (AgentLoop.systemOrigin msg).2 none := by
  simp [AgentLoop.systemFirstIterationMessages, get_history_zero]

/-- C3: both `process_message` and `process_system_message` obtain their
replayed history via `get_history 0`, which is the empty list for every
session; hence the first-iteration turn context is the same whatever the
session's persisted messages are — no record persisted in an earlier turn
(of any role, prior user messages included) reaches the model. -/
theorem C3_get_history_zero_empty_context (a : AgentLoop) (s : Session)
    (msg : InboundMessage) :
    s.get_history 0 = [] ∧
    a.firstIterationMessages s msg =
      a.build_turn_messages [] msg.content msg.channel msg.chat_id
        (AgentLoop.mediaOf msg) ∧
    a.systemFirstIterationMessages s msg =
      a.build_turn_messages [] msg.content (AgentLoop.systemOrigin msg).1
        (AgentLoop.systemOrigin msg).2 none ∧
    (∀ s2 : Session, a.firstIterationMessages s msg =
      a.firstIterationMessages s2 msg) := by
  refine ⟨get_history_zero s, ?_, systemFirstIterationMessages_eq a s msg, ?_⟩
  · simp [AgentLoop.firstIterationMessages, get_history_zero]
  · intro s2
    rw [firstIterationMessages_eq, firstIterationMessages_eq]

/-- An everything-empty `ContextBuilder` environment for concrete runs. -/
def simpleEnv : ContextEnv :=
  { now := "2026-01-01 00:00 (Thursday)", tzRaw := "UTC", osName := "linux",
    arch := "x86_64", workspaceDisplay := "/ws",
    readTextFile := fun _ => none, memoryContext := "", alwaysSkills := [],
    loadSkillsForContext := fun _ => "", skillsSummary := "",
    mimeOf := fun _ => none, readFileB64 := fun _ => none }

/-- A guard whose classifier never fires, for runs that do not exercise it. -/
def quietGuard : TurnGuard :=
  { shouldRetry := fun _ _ => false,
    correctionMessage := Json.obj [("role", Json.str "user"),
      ("content", Json.str "nudge")],
    toolsAvailableResponse := "You do have tools available." }

/-- A concrete agent whose provider answers "4" with no tool calls. -/
def simpleAgent : AgentLoop :=
  { env := simpleEnv, model := "gpt-test", max_iterations := 3,
    tools := ToolRegistry.new,
    provider := fun _ =>
      { content := some "4", tool_calls := [], reasoning_content := none },
    guard := quietGuard }

/-- A session holding one prior user message "u1". -/
def sessionWithPrior : Session :=
  (Session.new "telegram:42").add_message "user" "u1" "t0"

/-- A concrete inbound message. -/
def inboundHello : InboundMessage :=
  InboundMessage.new "telegram" "alice" "42" "hello" "t1"

/-- C2 counterexample: with a prior user message "u1" in the session, the
first-iteration array `process_message` actually sends has three entries —
system prompt, runtime facts, current user message — and contains no record
of the session's prior user-role history; in particular it differs from the
array the claim describes (system prompt, runtime facts, the prior user
history, current user). -/
theorem C2_counterexample :
    (simpleAgent.firstIterationMessages sessionWithPrior inboundHello).length
        = 3 ∧
    Json.obj [("role", Json.str "user"), ("content", Json.str "u1")] ∉
      simpleAgent.firstIterationMessages sessionWithPrior inboundHello ∧
    simpleAgent.firstIterationMessages sessionWithPrior inboundHello ≠
      simpleAgent.build_turn_messages (sessionWithPrior.get_history 1)
        inboundHello.content inboundHello.channel inboundHello.chat_id
        (AgentLoop.mediaOf inboundHello) := by
  refine ⟨rfl, ?_, fun h => absurd (congrArg List.length h) (by decide)⟩
  rw [firstIterationMessages_eq]
  simp [AgentLoop.runtime_facts_message, ContextEnv.build_user_content,
    AgentLoop.mediaOf, inboundHello, InboundMessage.new, simpleAgent]

/-- C2 amended: on the first iteration of every turn the provider receives
exactly the system prompt, the synthesized runtime-facts system message, and
the current user message, in that order; the history component is empty
(`get_history 0`), so no message from any earlier turn — assistant, tool, or
user — appears anywhere in it. -/
theorem C2_first_iteration_array (a : AgentLoop) (s : Session)
    (msg : InboundMessage) :
    a.firstIterationMessages s msg =
      [Json.obj [("role", Json.str "system"),
         ("content", Json.str (a.env.build_system_prompt none ++
           "\n\n## Current Session\nChannel: " ++ msg.channel ++
           "\nChat ID: " ++ msg.chat_id))],
       a.runtime_facts_message,
       Json.obj [("role", Json.str "user"),
         ("content", a.env.build_user_content msg.content
           (AgentLoop.mediaOf msg))]] :=
  firstIterationMessages_eq a s msg

/-- Helper: under a provider that always returns tool calls, the turn loop
consumes all its fuel — it never breaks out — making exactly one provider
request per iteration and leaving no final content. -/
theorem runIterations_always_tools (a : AgentLoop) (mc ch cid : String)
    (media : Option (List String))
    (hp : ∀ msgs, (a.provider msgs).has_tool_calls = true) :
    ∀ fuel iteration st,
      (a.runIterations mc ch cid media fuel iteration st).final_content = none ∧
      (a.runIterations mc ch cid media fuel iteration st).state.llmCalls =
        st.llmCalls + fuel := by
  intro fuel
  induction fuel with
  | zero => intro iteration st; simp [AgentLoop.runIterations]
  | succ n ih =>
      intro iteration st
      rw [AgentLoop.runIterations]
      simp only [hp, if_true]
      refine ⟨(ih _ _).1, ?_⟩
      rw [(ih _ _).2]
      simp only []
      omega

/-- C4: if the provider always answers with tool calls (to a registered
tool), `process_message` makes exactly `max_iterations` LLM/tool exchanges —
never more — leaves no final content, and returns the default fallback
answer. -/
theorem C4_termination_at_iteration_cap (a : AgentLoop) (s : Session)
    (msg : InboundMessage) (ts1 ts2 : String)
    (hp : ∀ msgs, (a.provider msgs).has_tool_calls = true)
    (_hreg : ∀ msgs, ∀ tc ∈ (a.provider msgs).tool_calls,
      a.tools.hasTool tc.name = true) :
    (a.processMessage s msg ts1 ts2).result.final_content = none ∧
    (a.processMessage s msg ts1 ts2).result.state.llmCalls = a.max_iterations ∧
    (a.processMessage s msg ts1 ts2).result.state.llmCalls ≤ a.max_iterations ∧
    (a.processMessage s msg ts1 ts2).answer = AgentLoop.defaultFallback := by
  have h := runIterations_always_tools a msg.content msg.channel msg.chat_id
    (AgentLoop.mediaOf msg) hp a.max_iterations 1
    { messages := a.build_turn_messages (s.get_history 0) msg.content
        msg.channel msg.chat_id (AgentLoop.mediaOf msg),
      tools_used := [], retried_with_fresh_context := false, llmCalls := 0,
      retryCount := 0 }
  have hfin : (a.processMessage s msg ts1 ts2).result.final_content = none := h.1
  have hcalls : (a.processMessage s msg ts1 ts2).result.state.llmCalls =
      a.max_iterations := by
    have := h.2
    simpa [AgentLoop.processMessage, AgentLoop.runTurn] using this
  refine ⟨hfin, hcalls, le_of_eq hcalls, ?_⟩
  simp [AgentLoop.processMessage, AgentLoop.runTurn] at hfin ⊢
  simp [hfin]

/-- A no-op tool with an empty object schema. -/
def noopTool : ToolImpl :=
  { name := "noop", description := "does nothing",
    parameters := Json.obj [("type", Json.str "object"),
      ("properties", Json.obj [])],
    execute := fun _ => .ok "ok" }

/-- An agent whose provider always requests one call of the registered
no-op tool. -/
def alwaysToolAgent : AgentLoop :=
  { env := simpleEnv, model := "gpt-test", max_iterations := 3,
    tools := ToolRegistry.new.register noopTool,
    provider := fun _ =>
      { content := none,
        tool_calls := [{ id := "1", name := "noop", arguments := [] }],
        reasoning_content := none },
    guard := quietGuard }

/-- C4 witness: the always-tool-calls agent, cap 3, on a concrete message. -/
theorem C4_witness :
    (alwaysToolAgent.processMessage (Session.new "telegram:42") inboundHello
        "t1" "t2").result.state.llmCalls = 3 ∧
    (alwaysToolAgent.processMessage (Session.new "telegram:42") inboundHello
        "t1" "t2").answer = AgentLoop.defaultFallback := by
  have h := C4_termination_at_iteration_cap alwaysToolAgent
    (Session.new "telegram:42") inboundHello "t1" "t2"
    (fun _ => rfl)
    (by
      intro msgs tc htc
      simp only [alwaysToolAgent, List.mem_singleton] at htc
      subst htc
      rfl)
  exact ⟨h.2.1, h.2.2.2⟩

/-- Helper: the turn loop performs at most one fresh-context rebuild beyond
those already recorded; once `retried_with_fresh_context` is set, the count
never moves again. -/
theorem runIterations_retryCount_bound (a : AgentLoop) (mc ch cid : String)
    (media : Option (List String)) :
    ∀ fuel iteration st,
      (a.runIterations mc ch cid media fuel iteration st).state.retryCount ≤
        st.retryCount + (if st.retried_with_fresh_context then 0 else 1) := by
  intro fuel
  induction fuel with
  | zero => intro iteration st; simp [AgentLoop.runIterations]
  | succ n ih =>
      intro iteration st
      rw [AgentLoop.runIterations]
      by_cases htools : (a.provider st.messages).has_tool_calls = true
      · rw [if_pos htools]
        exact le_trans (ih _ _) (le_refl _)
      · rw [if_neg htools]
        by_cases hguard :
            a.guard.shouldRetry (a.provider st.messages).content iteration = true
        · rw [if_pos hguard]
          by_cases hret : st.retried_with_fresh_context = true
          · rw [if_neg (by simp [hret])]
            simp [hret]
          · rw [if_pos (by simp [hret])]
            refine le_trans (ih _ _) ?_
            simp [hret]
        · rw [if_neg hguard]
          simp

/-- C5: within one turn, a no-tool-call response that the TurnGuard
classifies as a false "no tools available" claim causes, on first
occurrence, exactly one rebuild with empty history plus the corrective
nudge (and the loop continues); on a second occurrence the loop stops with
the canned "tools are available" response; and over any whole turn the
fresh-context retry fires at most once. -/
theorem C5_turn_guard_retry_policy (a : AgentLoop) (s : Session)
    (msg : InboundMessage) (ts1 ts2 : String) (mc ch cid : String)
    (media : Option (List String)) (fuel iteration : Nat)
    (st : AgentLoop.TurnState)
    (htools : (a.provider st.messages).has_tool_calls = false)
    (hguard : a.guard.shouldRetry (a.provider st.messages).content iteration
      = true) :
    (a.processMessage s msg ts1 ts2).result.state.retryCount ≤ 1 ∧
    (st.retried_with_fresh_context = false →
      a.runIterations mc ch cid media (fuel + 1) iteration st =
        a.runIterations mc ch cid media fuel (iteration + 1)
          { st with
            messages := a.build_turn_messages [] mc ch cid media ++
              [a.guard.correctionMessage],
            retried_with_fresh_context := true,
            llmCalls := st.llmCalls + 1,
            retryCount := st.retryCount + 1 }) ∧
    (st.retried_with_fresh_context = true →
      a.runIterations mc ch cid media (fuel + 1) iteration st =
        { final_content := some a.guard.toolsAvailableResponse,
          state := { st with llmCalls := st.llmCalls + 1 } }) := by
  refine ⟨?_, ?_, ?_⟩
  · have h := runIterations_retryCount_bound a msg.content msg.channel
      msg.chat_id (AgentLoop.mediaOf msg) a.max_iterations 1
      { messages := a.build_turn_messages (s.get_history 0) msg.content
          msg.channel msg.chat_id (AgentLoop.mediaOf msg),
        tools_used := [], retried_with_fresh_context := false, llmCalls := 0,
        retryCount := 0 }
    simpa [AgentLoop.processMessage, AgentLoop.runTurn] using h
  · intro hret
    rw [AgentLoop.runIterations]
    rw [if_neg (by simp [htools]), if_pos hguard, if_pos (by simp [hret])]
  · intro hret
    rw [AgentLoop.runIterations]
    rw [if_neg (by simp [htools]), if_pos hguard, if_neg (by simp [hret])]

/-- A guard whose classifier flags the literal refusal "I have no tools". -/
def noToolsGuard : TurnGuard :=
  { shouldRetry := fun content _ => content == some "I have no tools",
    correctionMessage := Json.obj [("role", Json.str "user"),
      ("content", Json.str "You DO have tools. Use them.")],
    toolsAvailableResponse := "Tools are available; I can run them for you." }

/-- An agent whose provider always answers the flagged refusal with no tool
calls. -/
def claimsNoToolsAgent : AgentLoop :=
  { env := simpleEnv, model := "gpt-test", max_iterations := 3,
    tools := ToolRegistry.new,
    provider := fun _ =>
      { content := some "I have no tools", tool_calls := [],
        reasoning_content := none },
    guard := noToolsGuard }

/-- A not-yet-retried turn state. -/
def guardState0 : AgentLoop.TurnState :=
  { messages := [], tools_used := [], retried_with_fresh_context := false,
    llmCalls := 0, retryCount := 0 }

/-- The same state after the fresh-context retry has been spent. -/
def guardState1 : AgentLoop.TurnState :=
  { guardState0 with retried_with_fresh_context := true }

/-- C5 witness: the flagged-refusal agent at concrete states — first
occurrence rebuilds with empty history plus the nudge, second occurrence
returns the canned response, and a whole concrete turn retries at most
once. -/
theorem C5_witness :
    (claimsNoToolsAgent.processMessage (Session.new "telegram:42")
        inboundHello "t1" "t2").result.state.retryCount ≤ 1 ∧
    claimsNoToolsAgent.runIterations "hello" "telegram" "42" none 2 1
        guardState0 =
      claimsNoToolsAgent.runIterations "hello" "telegram" "42" none 1 2
        { guardState0 with
          messages := claimsNoToolsAgent.build_turn_messages [] "hello"
            "telegram" "42" none ++
            [claimsNoToolsAgent.guard.correctionMessage],
          retried_with_fresh_context := true,
          llmCalls := guardState0.llmCalls + 1,
          retryCount := guardState0.retryCount + 1 } ∧
    claimsNoToolsAgent.runIterations "hello" "telegram" "42" none 1 2
        guardState1 =
      { final_content := some claimsNoToolsAgent.guard.toolsAvailableResponse,
        state := { guardState1 with llmCalls := guardState1.llmCalls + 1 } } := by
  have h := C5_turn_guard_retry_policy claimsNoToolsAgent
    (Session.new "telegram:42") inboundHello "t1" "t2" "hello" "telegram"
    "42" none 1 1 guardState0 rfl rfl
  have h1 := C5_turn_guard_retry_policy claimsNoToolsAgent
    (Session.new "telegram:42") inboundHello "t1" "t2" "hello" "telegram"
    "42" none 0 2 guardState1 rfl rfl
  exact ⟨h.1, h.2.1 rfl, h1.2.2 rfl⟩

/-- C6: `ToolRegistry::execute` always returns a plain string, never an
error: a missing tool yields the textual "Tool '<name>' not found" message
(no tool runs), validation errors yield a human-readable error string
without reaching the tool's `execute`, a failing `execute` is converted to
an error string, and a succeeding `execute` returns its output. -/
theorem C6_registry_execute_never_fails (reg : ToolRegistry) (name : String)
    (params : List (String × Json)) :
    (reg.getTool name = none →
      reg.execute name params =
        "Error: Tool \x27" ++ name ++ "\x27 not found") ∧
    (∀ tool, reg.getTool name = some tool →
      ¬tool.validate_params params = [] →
      reg.execute name params =
        "Error: Invalid parameters for tool \x27" ++ name ++ "\x27: " ++
          String.intercalate "; " (tool.validate_params params)) ∧
    (∀ tool err, reg.getTool name = some tool →
      tool.validate_params params = [] →
      tool.execute params = .error err →
      reg.execute name params = "Error executing " ++ name ++ ": " ++ err) ∧
    (∀ tool out, reg.getTool name = some tool →
      tool.validate_params params = [] →
      tool.execute params = .ok out →
      reg.execute name params = out) := by
  refine ⟨?_, ?_, ?_, ?_⟩
  · intro hnone
    simp [ToolRegistry.execute, hnone]
  · intro tool htool herr
    rw [ToolRegistry.execute, htool]
    simp only [List.isEmpty_iff]
    rw [if_pos herr]
  · intro tool err htool hok hfail
    rw [ToolRegistry.execute, htool]
    simp only [List.isEmpty_iff]
    rw [if_neg (by simp [hok]), hfail]
  · intro tool out htool hok hsucc
    rw [ToolRegistry.execute, htool]
    simp only [List.isEmpty_iff]
    rw [if_neg (by simp [hok]), hsucc]

/-- A tool whose `execute` always fails, with a one-string-property schema. -/
def boomTool : ToolImpl :=
  { name := "boom", description := "always fails",
    parameters := Json.obj [("type", Json.str "object"),
      ("properties", Json.obj
        [("query", Json.obj [("type", Json.str "string")])])],
    execute := fun _ => .error "boom" }

/-- A registry holding just `boomTool`. -/
def boomRegistry : ToolRegistry := ToolRegistry.new.register boomTool

/-- C6 witness: the three error paths of `execute` on a concrete registry —
unknown tool, invalid parameters, failing tool — all return plain error
strings. -/
theorem C6_witness :
    boomRegistry.execute "ghost" [] = "Error: Tool \x27ghost\x27 not found" ∧
    boomRegistry.execute "boom" [("query", Json.int 1)] =
      "Error: Invalid parameters for tool \x27boom\x27: query should be string" ∧
    boomRegistry.execute "boom" [] = "Error executing boom: boom" ∧
    (ToolRegistry.new.register noopTool).execute "noop" [] = "ok" := by
  have hv1 : boomTool.validate_params [("query", Json.int 1)] =
      ["query should be string"] := by
    simp [ToolImpl.validate_params, boomTool, validate_value, validate_props,
      requiredErrors, Json.get, Json.asStr, Json.asI64, Json.asU64, Json.asF64,
      Json.asObject, Json.isBoolean, List.lookup, objectChildPath]
    rfl
  have hv0 : boomTool.validate_params [] = [] := by
    simp [ToolImpl.validate_params, boomTool, validate_value, validate_props,
      requiredErrors, Json.get, Json.asStr, Json.asI64, Json.asU64, Json.asF64,
      Json.asObject, Json.isBoolean, List.lookup]
  have hvn : noopTool.validate_params [] = [] := by
    simp [ToolImpl.validate_params, noopTool, validate_value, validate_props,
      requiredErrors, Json.get, Json.asStr, Json.asI64, Json.asU64, Json.asF64,
      Json.asObject, Json.isBoolean, List.lookup]
  refine ⟨(C6_registry_execute_never_fails boomRegistry "ghost" []).1 rfl,
    ?_, ?_, ?_⟩
  · have h := (C6_registry_execute_never_fails boomRegistry "boom"
      [("query", Json.int 1)]).2.1 boomTool rfl (by rw [hv1]; simp)
    rw [h, hv1]
    rfl
  · exact (C6_registry_execute_never_fails boomRegistry "boom" []).2.2.1
      boomTool "boom" rfl hv0 rfl
  · exact (C6_registry_execute_never_fails (ToolRegistry.new.register noopTool)
      "noop" []).2.2.2 noopTool "ok" rfl hvn rfl

/-- The claim's schema: `query` a string with `minLength` 2, `count` an
integer in `[1, 10]`. -/
def sampleProps : List (String × Json) :=
  [("query", Json.obj [("type", Json.str "string"), ("minLength", Json.int 2)]),
   ("count", Json.obj [("type", Json.str "integer"), ("minimum", Json.int 1),
      ("maximum", Json.int 10)])]

/-- The object schema wrapping `sampleProps`. -/
def sampleSchema : Json :=
  Json.obj [("type", Json.str "object"), ("properties", Json.obj sampleProps)]

/-- A tool carrying `sampleSchema`. -/
def sampleTool : ToolImpl :=
  { name := "sample", description := "sample tool",
    parameters := sampleSchema, execute := fun _ => .ok "ok" }

/-- Helper: the property loop distributes over appended parameter maps. -/
theorem validate_props_append (xs ys props : List (String × Json))
    (path fb : String) :
    validate_props (xs ++ ys) props path fb =
      validate_props xs props path fb ++ validate_props ys props path fb := by
  induction xs with
  | nil => simp [validate_props]
  | cons hd tl ih =>
      cases hd
      simp [validate_props, ih]

/-- Helper: on `sampleSchema` (an open object schema with no `required`
list), `validate_params` is exactly the property loop. -/
theorem sample_validate_params_eq (ps : List (String × Json)) :
    sampleTool.validate_params ps = validate_props ps sampleProps "" "parameter" := by
  simp [ToolImpl.validate_params, sampleTool, sampleSchema, validate_value,
    requiredErrors, Json.get, Json.asStr, Json.asObject, List.lookup]

/-- C7: against `sampleSchema`, `{query:"h"}` is rejected with a descriptive
error, `{query:"hi",count:0}` is rejected with a descriptive error,
`{query:"hi",count:5}` passes with no errors, and appending an unknown extra
field to any parameter map never changes the validation outcome. -/
theorem C7_sample_schema_validation (k : String) (v : Json)
    (params : List (String × Json)) :
    sampleTool.validate_params [("query", Json.str "h")] =
      ["query must be at least 2 chars"] ∧
    sampleTool.validate_params
        [("count", Json.int 0), ("query", Json.str "hi")] =
      ["count must be >= 1"] ∧
    sampleTool.validate_params
        [("count", Json.int 5), ("query", Json.str "hi")] = [] ∧
    (k ≠ "query" → k ≠ "count" →
      sampleTool.validate_params (params ++ [(k, v)]) =
        sampleTool.validate_params params) := by
  refine ⟨?_, ?_, ?_, ?_⟩
  · simp [sample_validate_params_eq, sampleProps, validate_props,
      validate_value, Json.get, Json.asStr, Json.asI64, Json.asU64,
      List.lookup, objectChildPath]
    rfl
  · simp [sample_validate_params_eq, sampleProps, validate_props,
      validate_value, Json.get, Json.asStr, Json.asI64, Json.asU64,
      List.lookup, objectChildPath]
    decide
  · simp [sample_validate_params_eq, sampleProps, validate_props,
      validate_value, Json.get, Json.asStr, Json.asI64, Json.asU64,
      List.lookup, objectChildPath]
    decide
  · intro hkq hkc
    have hq : (k == "query") = false := beq_eq_false_iff_ne.mpr hkq
    have hc : (k == "count") = false := beq_eq_false_iff_ne.mpr hkc
    rw [sample_validate_params_eq, sample_validate_params_eq,
      validate_props_append]
    simp [validate_props, sampleProps, List.lookup, hq, hc]

/-- C7 witness: the open-schema conjunct applied at the concrete extra field
`other:true` on the accepted parameter map. -/
theorem C7_witness :
    sampleTool.validate_params
        [("count", Json.int 5), ("query", Json.str "hi"),
         ("other", Json.bool true)] =
      sampleTool.validate_params
        [("count", Json.int 5), ("query", Json.str "hi")] :=
  (C7_sample_schema_validation "other" (Json.bool true)
    [("count", Json.int 5), ("query", Json.str "hi")]).2.2.2
    (by decide) (by decide)

/-- C8: a completed non-system turn appends exactly two records to the
session — a role "user" record with the inbound content and timestamp, then
a role "assistant" record with the final answer (and the names of the tools
used, when any) — and nothing else: the in-flight turn transcript is not
persisted. -/
theorem C8_persist_exactly_two_records (a : AgentLoop) (s : Session)
    (msg : InboundMessage) (ts1 ts2 : String) :
    (a.processMessage s msg ts1 ts2).savedSession.messages =
      s.messages ++
        [Json.obj [("role", Json.str "user"),
           ("content", Json.str msg.content), ("timestamp", Json.str ts1)],
         (if (a.processMessage s msg ts1 ts2).result.state.tools_used.isEmpty
          then
            Json.obj [("role", Json.str "assistant"),
              ("content", Json.str (a.processMessage s msg ts1 ts2).answer),
              ("timestamp", Json.str ts2)]
          else
            Json.obj [("role", Json.str "assistant"),
              ("content", Json.str (a.processMessage s msg ts1 ts2).answer),
              ("timestamp", Json.str ts2),
              ("tools_used", Json.arr
                ((a.processMessage s msg ts1
                  ts2).result.state.tools_used.map Json.str))])] ∧
    (a.processMessage s msg ts1 ts2).savedSession.messages.length =
      s.messages.length + 2 := by
  constructor
  · simp only [AgentLoop.processMessage, Session.add_message,
      Session.add_message_with_tools]
    split <;> simp
  · simp [AgentLoop.processMessage, Session.add_message,
      Session.add_message_with_tools]

/-- C9: the dispatch loop turns a failing `process_message` into the
apology outbound message — addressed to the inbound channel/chat id and
carrying the inbound metadata — and keeps consuming: every inbound message,
failing turns included, yields exactly one outbound message. -/
theorem C9_dispatch_survives_turn_errors
    (process : InboundMessage → Except String OutboundMessage)
    (msgs rest : List InboundMessage) (msg : InboundMessage) (err : String) :
    (AgentLoop.runDispatch process msgs).length = msgs.length ∧
    AgentLoop.runDispatch process (msg :: rest) =
      AgentLoop.dispatchOnce (process msg) msg ::
        AgentLoop.runDispatch process rest ∧
    (process msg = .error err →
      AgentLoop.dispatchOnce (process msg) msg =
        { channel := msg.channel, chat_id := msg.chat_id,
          content := "Sorry, I encountered an error: " ++ err,
          reply_to := none, media := [], metadata := msg.metadata }) := by
  refine ⟨?_, rfl, ?_⟩
  · induction msgs with
    | nil => rfl
    | cons hd tl ih => simp [AgentLoop.runDispatch, ih]
  · intro herr
    simp [AgentLoop.dispatchOnce, herr, OutboundMessage.new]

/-- C9 witness: a dispatcher whose every turn fails with "boom", on two
concrete inbound messages. -/
theorem C9_witness :
    AgentLoop.dispatchOnce
        ((fun _ => Except.error "boom") inboundHello) inboundHello =
      { channel := "telegram", chat_id := "42",
        content := "Sorry, I encountered an error: boom",
        reply_to := none, media := [], metadata := [] } ∧
    (AgentLoop.runDispatch (fun _ => Except.error "boom")
        [inboundHello, inboundHello]).length = 2 := by
  have h := C9_dispatch_survives_turn_errors (fun _ => Except.error "boom")
    [inboundHello, inboundHello] [] inboundHello "boom"
  exact ⟨h.2.2 rfl, h.1⟩

/-- C10: every spawned subagent task publishes, on completion — success and
failure alike — exactly one synthetic inbound message, with channel
"system" and chat id `origin_channel:origin_chat_id`, and its entry leaves
the running-task map; the acknowledgement `spawn` returns is a fixed format
string independent of the task's outcome. -/
theorem C10_subagent_completion_protocol (result : Except String String)
    (label task oc oid ts id : String) (running : List (String × Unit)) :
    SubagentManager.completionPublishes result label task oc oid ts =
      [SubagentManager.completionMessage result label task oc oid ts] ∧
    (SubagentManager.completionMessage result label task oc oid ts).channel =
      "system" ∧
    (SubagentManager.completionMessage result label task oc oid ts).chat_id =
      oc ++ ":" ++ oid ∧
    (SubagentManager.removeTask running id).lookup id = none ∧
    SubagentManager.spawnAck label id =
      "Subagent [" ++ label ++ "] started (id: " ++ id ++
        "). I\x27ll notify you when it completes." := by
  refine ⟨rfl, rfl, rfl, ?_, rfl⟩
  induction running with
  | nil => rfl
  | cons hd tl ih =>
      obtain ⟨k, u⟩ := hd
      by_cases h : k = id
      · simpa [SubagentManager.removeTask, List.filter_cons, h] using ih
      · have hik : (id == k) = false := beq_eq_false_iff_ne.mpr (Ne.symm h)
        simp only [SubagentManager.removeTask, List.filter_cons] at ih ⊢
        rw [if_pos (by simpa using h)]
        simpa [List.lookup, hik] using ih
